import Mathlib

/-!
# simple-go-image-processing: handlers and error formatter

A shallow embedding of `handler.go` (the `converter`, `resizer` and
`compressor` handlers with the `supportedTypes` table) and of `main.go`
(the routes of `SetupApp` and the `ErrorHandler` of `config`).

* A handler is a function on an explicit request context `Ctx`: the context
  carries the request, the response written so far (status, headers, body),
  the list of calls made to the upload and to the image library, and the log.
* The image library (gocv) is a parameter `Gocv Mat`: the handlers are
  verified for every behaviour of decode, resize and encode.
* Go's `error` values are the type `GoError`; a nil pointer dereference is the
  result `Result.crashed`.
* The deferred `Close` calls release resources and write nothing to the
  response; they are left out.
-/

namespace ImageProcessing

/-! ## Go values -/

/-- A byte slice. -/
abbrev Bytes := List Nat

/-- Go `error` values: a `*fiber.Error`, an error of another type, or an
error wrapping another one (the chain `errors.As` walks). -/
inductive GoError where
  | fiber (Code : Int) (Message : String)
  | plain (text : String)
  | wrapped (text : String) (inner : GoError)
  deriving DecidableEq, Repr

/-- The constant `fiber.StatusOK`. -/
def StatusOK : Int := 200

/-- The constant `fiber.StatusBadRequest`. -/
def StatusBadRequest : Int := 400

/-- The constant `fiber.StatusInternalServerError`. -/
def StatusInternalServerError : Int := 500

/-- The constructor `fiber.NewError(code, message)`. -/
def NewError (code : Int) (message : String) : GoError :=
  .fiber code message

/-- The call `errors.As(err, &e)` for `e : *fiber.Error`: the first fiber error
in the chain of `err`, or `none` (the pointer `e` stays nil). -/
def errorsAs : GoError → Option (Int × String)
  | .fiber k m => some (k, m)
  | .plain _ => none
  | .wrapped _ inner => errorsAs inner

/-- The constant `gocv.IMReadColor`. -/
def IMReadColor : Int := 1

/-- The constant `gocv.IMWriteJpegQuality`. -/
def IMWriteJpegQuality : Int := 1

/-- The constant `gocv.IMWritePngCompression`. -/
def IMWritePngCompression : Int := 16

/-! ## strconv.Atoi and filepath.Ext -/

/-- A non-empty run of decimal digits as a number; `none` for the empty run
and for any other byte. -/
def parseDecimal (cs : List Char) : Option Nat :=
  if cs = [] then none
  else cs.foldlM
    (fun n ch => if 48 ≤ ch.toNat ∧ ch.toNat ≤ 57 then some (n * 10 + (ch.toNat - 48)) else none) 0

/-- The function `strconv.Atoi` on a 64-bit platform: an optional sign, then
decimal digits, the value within the range of `int`; `none` stands for a
non-nil error. -/
def Atoi (s : String) : Option Int :=
  match s.data with
  | [] => none
  | '-' :: rest =>
    (parseDecimal rest).bind fun n => if n ≤ 2 ^ 63 then some (-(n : Int)) else none
  | '+' :: rest =>
    (parseDecimal rest).bind fun n => if n < 2 ^ 63 then some (n : Int) else none
  | cs =>
    (parseDecimal cs).bind fun n => if n < 2 ^ 63 then some (n : Int) else none

/-- The loop of `filepath.Ext`, on the reversed path: walk back from the end,
stop at a path separator, return the suffix from the first dot met. -/
def extAux : List Char → List Char → List Char
  | [], _ => []
  | ch :: rest, acc =>
    if ch = '/' then []
    else if ch = '.' then '.' :: acc
    else extAux rest (ch :: acc)

/-- The function `filepath.Ext`: the suffix of the last path element from its
final dot, empty when there is none. -/
def Ext (path : String) : String :=
  String.mk (extAux path.data.reverse [])

/-- The table `supportedTypes` of handler.go. -/
def supportedTypes : List (String × String) :=
  [(".jpg", "image/jpeg"), (".jpeg", "image/jpeg"), (".png", "image/png")]

/-- The index expression `supportedTypes[extension]`: the zero value `""` for
a key that is not in the map. -/
def supportedTypesAt (extension : String) : String :=
  (supportedTypes.lookup extension).getD ""

/-! ## Requests -/

/-- An opened upload (`multipart.File`): what `io.ReadAll` returns, `none`
for a read error. -/
structure File where
  contents : Option Bytes
  deriving DecidableEq, Repr

/-- A `multipart.FileHeader`: the declared filename, the part's MIME header,
the size, and the result of `Open` (`none` for an error). -/
structure FileHeader where
  Filename : String
  Header : List (String × String)
  Size : Int
  opened : Option File
  deriving DecidableEq, Repr

/-- The method `textproto.MIMEHeader.Get`: the first value of the key, `""`
when the key is absent. -/
def FileHeader.Get (file : FileHeader) (key : String) : String :=
  (file.Header.lookup key).getD ""

/-- A request as the handlers see it: the form values in the order the lookup
visits them (for a key its first value in the query string, then in the body
arguments, then in the multipart form) and the uploaded files by field name. -/
structure Request where
  values : List (String × String)
  files : List (String × FileHeader)
  deriving DecidableEq, Repr

/-- The lookup of a form value: an empty value of the key in one source falls
through to the next source; `""` when no source has a non-empty value. -/
def firstValue (key : String) : List (String × String) → String
  | [] => ""
  | (k, v) :: rest => if k = key ∧ v ≠ "" then v else firstValue key rest

/-- The form value of a key with a default: the first non-empty value of the
key, the default when there is none. -/
def Request.FormValue (req : Request) (key defaultValue : String) : String :=
  if firstValue key req.values = "" then defaultValue else firstValue key req.values

/-- The first file uploaded under a field name, `none` when there is none. -/
def Request.FormFile (req : Request) (key : String) : Option FileHeader :=
  req.files.lookup key

/-! ## Responses and the request context -/

/-- A value of the JSON envelope. -/
inductive JsonValue where
  | num (n : Int)
  | str (s : String)
  deriving DecidableEq, Repr

/-- A response body: nothing, raw bytes, a status text, or the encoding of a
JSON object given by its fields. -/
inductive Body where
  | empty
  | raw (b : Bytes)
  | text (s : String)
  | json (fields : List (String × JsonValue))
  deriving DecidableEq, Repr

/-- The response a context holds. -/
structure Response where
  status : Int
  headers : List (String × String)
  body : Body
  deriving DecidableEq, Repr

/-- A call a handler makes on the upload or on the image library. -/
inductive Call (Mat : Type) where
  | fileOpen (filename : String)
  | readAll
  | imDecode (b : Bytes) (flags : Int)
  | resize (src : Mat) (width height : Int)
  | imEncode (fileExt : String) (img : Mat)
  | imEncodeWithParams (fileExt : String) (img : Mat) (params : List Int)
  deriving DecidableEq, Repr

/-- An argument of `log.Println`. -/
inductive LogArg where
  | s (text : String)
  | i (n : Int)
  deriving DecidableEq, Repr

/-- The image library as the handlers use it: `IMDecode` and the two encoders
may fail (`none`), `Resize` writes its destination and reports nothing. -/
structure Gocv (Mat : Type) where
  IMDecode : Bytes → Int → Option Mat
  Resize : Mat → Int → Int → Mat
  IMEncode : String → Mat → Option Bytes
  IMEncodeWithParams : String → Mat → List Int → Option Bytes
  Cols : Mat → Int
  Rows : Mat → Int

/-- The request context `*fiber.Ctx`, with the calls and log lines so far. -/
structure Ctx (Mat : Type) where
  request : Request
  response : Response
  calls : List (Call Mat)
  logs : List (List LogArg)

/-- What running a handler gives: it returns with a context and an error (or
nil), or the goroutine dies on a nil pointer dereference. -/
inductive Result (Mat : Type) where
  | returned (c : Ctx Mat) (err : Option GoError)
  | crashed

variable {Mat : Type}

/-- A fresh context for a request: status 200, no header, no body. -/
def Ctx.new (req : Request) : Ctx Mat :=
  { request := req, response := { status := StatusOK, headers := [], body := .empty },
    calls := [], logs := [] }

/-- The method `c.FormValue(key, defaultValue)`: the first non-empty value of
the key, the default when there is none. -/
def Ctx.FormValue (c : Ctx Mat) (key defaultValue : String) : String :=
  c.request.FormValue key defaultValue

/-- The method `c.FormFile(key)`: the first file of the field, `none` for an
error (no multipart form, or no such field). -/
def Ctx.FormFile (c : Ctx Mat) (key : String) : Option FileHeader :=
  c.request.FormFile key

/-- Replace or add a header. -/
def setHeader (key val : String) : List (String × String) → List (String × String)
  | [] => [(key, val)]
  | (k, v) :: rest => if k = key then (key, val) :: rest else (k, v) :: setHeader key val rest

/-- The constant `defaultContentType` of fasthttp. -/
def defaultContentType : String := "text/plain; charset=utf-8"

/-- The value a response carries for a header the handler sets: an empty
Content-Type counts as unset, and the response then carries the default
content type; any other value is carried as given. -/
def sentValue (key val : String) : String :=
  if key = "Content-Type" ∧ val = "" then defaultContentType else val

/-- The method `c.Set(key, val)`. -/
def Ctx.Set (c : Ctx Mat) (key val : String) : Ctx Mat :=
  { c with response :=
      { c.response with headers := setHeader key (sentValue key val) c.response.headers } }

/-- The method `c.Send(body)`: stores the body; its error is always nil. -/
def Ctx.Send (c : Ctx Mat) (b : Bytes) : Ctx Mat × Option GoError :=
  ({ c with response := { c.response with body := .raw b } }, none)

/-- The method `c.Status(code)`: the code is stored as given (a stored 0 is
reported as 200 by the server; the handlers set 400 and 500 only). -/
def Ctx.Status (c : Ctx Mat) (code : Int) : Ctx Mat :=
  { c with response := { c.response with status := code } }

/-- The encoder `json.Marshal` on a map of string keys to integers and
strings, kept as the object itself: it has no failing case on such a map. -/
def jsonMarshal (fields : List (String × JsonValue)) : Except GoError Body :=
  .ok (.json fields)

/-- The method `c.JSON(data)`: encode, store the body, set the content type. -/
def Ctx.JSON (c : Ctx Mat) (fields : List (String × JsonValue)) : Ctx Mat × Option GoError :=
  match jsonMarshal fields with
  | .error err => (c, some err)
  | .ok raw =>
    ({ c with response :=
        { c.response with body := raw,
                          headers := setHeader "Content-Type" "application/json" c.response.headers } },
     none)

/-- The method `c.SendStatus(status)`: the status, and its text as the body
when the body is empty. -/
def Ctx.SendStatus (c : Ctx Mat) (status : Int) (statusText : String) : Ctx Mat :=
  let c1 := c.Status status
  if c1.response.body = .empty then
    { c1 with response := { c1.response with body := .text statusText } }
  else c1

/-- Record a call. -/
def Ctx.call (c : Ctx Mat) (x : Call Mat) : Ctx Mat :=
  { c with calls := c.calls ++ [x] }

/-- The function `log.Println`. -/
def Ctx.Println (c : Ctx Mat) (args : List LogArg) : Ctx Mat :=
  { c with logs := c.logs ++ [args] }

/-! ## handler.go -/

/-- The handler `converter`. -/
def converter (cv : Gocv Mat) (c : Ctx Mat) : Result Mat :=
  match c.FormFile "image" with
  | none =>
    .returned c (some (NewError StatusBadRequest "You have to provide `image` field!"))
  | some file =>
    if file.Get "Content-Type" ≠ "image/png" then
      .returned c (some (NewError StatusBadRequest "Please provide an image with PNG extension!"))
    else
      let c := c.call (.fileOpen file.Filename)
      match file.opened with
      | none =>
        .returned c (some (NewError StatusInternalServerError "Failed to stream image file"))
      | some f =>
        let c := c.call .readAll
        match f.contents with
        | none =>
          .returned c (some (NewError StatusInternalServerError "Failed to read image file"))
        | some b =>
          let c := c.call (.imDecode b IMReadColor)
          match cv.IMDecode b IMReadColor with
          | none =>
            .returned c (some (NewError StatusInternalServerError "Failed to decode image"))
          | some img =>
            let c := c.call (.imEncode ".jpg" img)
            match cv.IMEncode ".jpg" img with
            | none =>
              .returned c
                (some (NewError StatusInternalServerError "Failed to convert image to JPG"))
            | some buf =>
              let c := c.Set "Content-Type" "image/jpeg"
              match c.Send buf with
              | (c, some err) => .returned c (some err)
              | (c, none) =>
                let c := c.Println [.s "=== CONVERTER ==="]
                let c := c.Println [.s "From PNG to JPG"]
                .returned c none

/-- The handler `resizer`. -/
def resizer (cv : Gocv Mat) (c : Ctx Mat) : Result Mat :=
  let widthValue := c.FormValue "width" "0"
  let heightValue := c.FormValue "height" "0"
  match Atoi widthValue with
  | none =>
    .returned c
      (some (NewError StatusBadRequest "Please provide only an integer number for `width`!"))
  | some width =>
    match Atoi heightValue with
    | none =>
      .returned c
        (some (NewError StatusBadRequest "Please provide only an integer number for `height`!"))
    | some height =>
      if width ≤ 0 ∧ height ≤ 0 then
        .returned c
          (some (NewError StatusBadRequest
            "You must specify the dimensions using the `width` and `height` fields!"))
      else
        match c.FormFile "image" with
        | none =>
          .returned c (some (NewError StatusBadRequest "You have to provide `image` field!"))
        | some file =>
          let extension := Ext file.Filename
          let mime := file.Get "Content-Type"
          if mime ≠ "image/jpeg" ∧ mime ≠ "image/png" then
            .returned c
              (some (NewError StatusBadRequest "The image must be in JPEG or PNG format!"))
          else
            let c := c.call (.fileOpen file.Filename)
            match file.opened with
            | none =>
              .returned c
                (some (NewError StatusInternalServerError "Failed to stream image file"))
            | some f =>
              let c := c.call .readAll
              match f.contents with
              | none =>
                .returned c
                  (some (NewError StatusInternalServerError "Failed to read image file"))
              | some b =>
                let c := c.call (.imDecode b IMReadColor)
                match cv.IMDecode b IMReadColor with
                | none =>
                  .returned c
                    (some (NewError StatusInternalServerError "Failed to decode image"))
                | some img =>
                  let c := c.call (.resize img width height)
                  let resizedImg := cv.Resize img width height
                  let c := c.call (.imEncode extension resizedImg)
                  match cv.IMEncode extension resizedImg with
                  | none =>
                    .returned c
                      (some (NewError StatusInternalServerError
                        "Failed to resize image dimension"))
                  | some buf =>
                    let c := c.Set "Content-Type" (supportedTypesAt extension)
                    match c.Send buf with
                    | (c, some err) => .returned c (some err)
                    | (c, none) =>
                      let c := c.Println [.s "=== RESIZER ==="]
                      let c := c.Println
                        [.s "Original\t:", .i (cv.Cols img), .s " x ", .i (cv.Rows img)]
                      let c := c.Println
                        [.s "Resized\t:", .i (cv.Cols resizedImg), .s " x ",
                         .i (cv.Rows resizedImg)]
                      .returned c none

/-- The `switch mime` of `compressor` that fills `compressionParams`. -/
def compressionParams (mime : String) : List Int :=
  if mime = "image/jpeg" then [] ++ [IMWriteJpegQuality, 50]
  else if mime = "image/png" then [] ++ [IMWritePngCompression, 5]
  else []

/-- The handler `compressor`. -/
def compressor (cv : Gocv Mat) (c : Ctx Mat) : Result Mat :=
  match c.FormFile "image" with
  | none =>
    .returned c (some (NewError StatusBadRequest "You have to provide `image` field!"))
  | some file =>
    let extension := Ext file.Filename
    let mime := file.Get "Content-Type"
    if mime ≠ "image/jpeg" ∧ mime ≠ "image/png" then
      .returned c (some (NewError StatusBadRequest "The image must be in JPEG or PNG format!"))
    else
      let c := c.call (.fileOpen file.Filename)
      match file.opened with
      | none =>
        .returned c (some (NewError StatusInternalServerError "Failed to stream image file"))
      | some f =>
        let c := c.call .readAll
        match f.contents with
        | none =>
          .returned c (some (NewError StatusInternalServerError "Failed to read image file"))
        | some b =>
          let c := c.call (.imDecode b IMReadColor)
          match cv.IMDecode b IMReadColor with
          | none =>
            .returned c (some (NewError StatusInternalServerError "Failed to decode image"))
          | some img =>
            let params := compressionParams mime
            let c := c.call (.imEncodeWithParams extension img params)
            match cv.IMEncodeWithParams extension img params with
            | none =>
              .returned c
                (some (NewError StatusInternalServerError "Failed to compress image size"))
            | some buf =>
              let c := c.Set "Content-Type" (supportedTypesAt extension)
              match c.Send buf with
              | (c, some err) => .returned c (some err)
              | (c, none) =>
                let c := c.Println [.s "=== COMPRESSOR ==="]
                let c := c.Println [.s "Before\t:", .i file.Size]
                let c := c.Println [.s "After\t:", .i (buf.length : Int)]
                .returned c none

/-! ## main.go -/

/-- The three fields of the error envelope, as the map literal of the error
handler. -/
def envelope (code : Int) (message : String) : List (String × JsonValue) :=
  [("code", .num code), ("message", .str message), ("status", .str "error")]

/-- The `ErrorHandler` of `config`. The pointer `e` is what `errors.As` found;
reading `e.Message` through a nil `e` is a nil pointer dereference. -/
def ErrorHandler (c : Ctx Mat) (err : GoError) : Result Mat :=
  let e := errorsAs err
  let code := match e with
    | some (k, _) => k
    | none => StatusInternalServerError
  match e with
  | none => .crashed
  | some (_, message) =>
    match (c.Status code).JSON (envelope code message) with
    | (c, some _) =>
      match (c.Status StatusInternalServerError).JSON
          (envelope StatusInternalServerError "Internal Server Error") with
      | (c, err) => .returned c err
    | (c, none) => .returned c none

/-- The routes `SetupApp` registers. -/
inductive Route where
  | converter
  | resizer
  | compressor
  deriving DecidableEq, Repr

/-- The handler registered for a route. -/
def Route.handler (r : Route) : Gocv Mat → Ctx Mat → Result Mat :=
  match r with
  | .converter => ImageProcessing.converter
  | .resizer => ImageProcessing.resizer
  | .compressor => ImageProcessing.compressor

/-- One request through the application: the route's handler runs on a fresh
context; a non-nil error goes to the error handler, and an error of the error
handler ends in a bare status 500. -/
def serve (cv : Gocv Mat) (r : Route) (req : Request) : Result Mat :=
  match r.handler cv (Ctx.new req) with
  | .crashed => .crashed
  | .returned c none => .returned c none
  | .returned c (some err) =>
    match ErrorHandler c err with
    | .crashed => .crashed
    | .returned c none => .returned c none
    | .returned c (some _) =>
      .returned (c.SendStatus StatusInternalServerError "Internal Server Error") none

/-- The response of a run, when there is one. -/
def Result.response? : Result Mat → Option Response
  | .returned c _ => some c.response
  | .crashed => none

/-- The calls of a run, when it returned. -/
def Result.calls : Result Mat → List (Call Mat)
  | .returned c _ => c.calls
  | .crashed => []

/-- The error response: status `code`, the JSON content type, and the envelope
with the three fields. -/
def errorResponse (code : Int) (message : String) : Response :=
  { status := code, headers := [("Content-Type", "application/json")],
    body := .json (envelope code message) }

/-- The bytes the library returns for an encode call, `none` for a failed
encode and for any other call. -/
def Gocv.encoded (cv : Gocv Mat) : Call Mat → Option Bytes
  | .imEncode fileExt img => cv.IMEncode fileExt img
  | .imEncodeWithParams fileExt img params => cv.IMEncodeWithParams fileExt img params
  | _ => none

/-! ## A concrete image library for evaluation

Images are (columns, rows, pixels); decoding reads the two sizes from the
first two bytes, encoding writes them back, resizing sets the sizes. -/

/-- An image for the test library. -/
structure TestMat where
  cols : Int
  rows : Int
  pixels : Bytes
  deriving DecidableEq, Repr

/-- A small image library: any non-empty extension encodes. -/
def testCv : Gocv TestMat where
  IMDecode := fun b _ =>
    match b with
    | w :: h :: rest => some { cols := w, rows := h, pixels := rest }
    | _ => none
  Resize := fun m w h => { m with cols := w, rows := h }
  IMEncode := fun ext m =>
    if ext = "" then none else some (m.cols.toNat :: m.rows.toNat :: m.pixels)
  IMEncodeWithParams := fun ext m _ =>
    if ext = "" then none else some (m.cols.toNat :: m.rows.toNat :: m.pixels.take 1)
  Cols := fun m => m.cols
  Rows := fun m => m.rows

/-- An upload with the given filename and declared content type. -/
def upload (filename mime : String) (b : Bytes) : FileHeader :=
  { Filename := filename, Header := [("Content-Type", mime)], Size := b.length,
    opened := some { contents := some b } }

/-- The context the compressor returns for `image.jpeg`, declared
`image/jpeg`, with the bytes 3, 2, 9, 9, on the test library. -/
def jpegCompressed : Ctx TestMat :=
  { request := Request.mk [] [("image", upload "image.jpeg" "image/jpeg" [3, 2, 9, 9])],
    response := { status := 200, headers := [("Content-Type", "image/jpeg")],
                  body := .raw [3, 2, 9] },
    calls := [.fileOpen "image.jpeg", .readAll, .imDecode [3, 2, 9, 9] 1,
              .imEncodeWithParams ".jpeg" { cols := 3, rows := 2, pixels := [9, 9] } [1, 50]],
    logs := [[.s "=== COMPRESSOR ==="], [.s "Before\t:", .i 4], [.s "After\t:", .i 3]] }

/-- The context the compressor returns for `image.png`, declared `image/png`,
with no bytes, on the test library: the decode fails. -/
def decodeFailed : Ctx TestMat :=
  { request := Request.mk [] [("image", upload "image.png" "image/png" [])],
    response := { status := 200, headers := [], body := .empty },
    calls := [.fileOpen "image.png", .readAll, .imDecode [] 1],
    logs := [] }

/-! ## Shared lemmas -/

theorem lookup_setHeader (key val : String) (hs : List (String × String)) :
    (setHeader key val hs).lookup key = some val := by
  induction hs with
  | nil => simp [setHeader, List.lookup]
  | cons p rest ih =>
    obtain ⟨k, v⟩ := p
    by_cases hk : k = key
    · simp [setHeader, hk, List.lookup]
    · have hne : (key == k) = false := by
        simp only [beq_eq_false_iff_ne, ne_eq]
        exact fun h => hk h.symm
      simp [setHeader, hk, List.lookup, hne, ih]

/-- Every entry of `supportedTypes` is `image/jpeg` or `image/png`. -/
theorem supportedTypes_entry (extension t : String)
    (h : supportedTypes.lookup extension = some t) :
    t = "image/jpeg" ∨ t = "image/png" := by
  simp only [supportedTypes, List.lookup] at h
  repeat' split at h
  all_goals simp_all

/-- A type of the table is carried as given. -/
theorem sentValue_entry (t : String) (h : t = "image/jpeg" ∨ t = "image/png") :
    sentValue "Content-Type" t = t := by
  rcases h with h | h <;> subst h <;> decide

/-- What the error handler makes of a fiber error. -/
theorem ErrorHandler_fiber (c : Ctx Mat) (k : Int) (m : String) :
    ErrorHandler c (.fiber k m) =
      .returned
        { c with response :=
            { status := k,
              headers := setHeader "Content-Type" "application/json" c.response.headers,
              body := .json (envelope k m) } } none := by
  simp [ErrorHandler, errorsAs, Ctx.JSON, Ctx.Status, jsonMarshal]

/-- A handler that returns a fiber error on an untouched response ends in the
error response. -/
theorem serve_of_error (cv : Gocv Mat) (r : Route) (req : Request) (c : Ctx Mat)
    (k : Int) (m : String)
    (hrun : r.handler cv (Ctx.new req) = .returned c (some (NewError k m)))
    (hhead : c.response.headers = []) :
    (serve cv r req).response? = some (errorResponse k m) ∧ (serve cv r req).calls = c.calls := by
  simp [serve, hrun, NewError, ErrorHandler_fiber, Result.response?, Result.calls,
    errorResponse, hhead, setHeader]

/-! ## C1: a request without the `image` field -/

/-- C1, as stated, fails: a resizer request with no field at all carries no
`image` field, and its response is the dimension error, not the message about
the `image` field. -/
theorem missing_image_resizer_counterexample :
    (Request.mk [] []).FormFile "image" = none ∧
    (serve testCv Route.resizer (Request.mk [] [])).response? =
      some (errorResponse 400
        "You must specify the dimensions using the `width` and `height` fields!") ∧
    (serve testCv Route.resizer (Request.mk [] [])).response? ≠
      some (errorResponse 400 "You have to provide `image` field!") := by
  decide

/-- C1, amended: a converter or compressor request without the `image` field
is answered 400 "You have to provide `image` field!" whatever its other
fields are; a resizer request without it is answered so when its width and
height values parse as integers that are not both nonpositive. -/
theorem missing_image_response (cv : Gocv Mat) (r : Route) (req : Request)
    (hfile : req.FormFile "image" = none)
    (hroute : r = Route.converter ∨ r = Route.compressor ∨
      ∃ w h, Atoi (req.FormValue "width" "0") = some w ∧
        Atoi (req.FormValue "height" "0") = some h ∧ ¬ (w ≤ 0 ∧ h ≤ 0)) :
    (serve cv r req).response? =
      some (errorResponse 400 "You have to provide `image` field!") := by
  have key : r.handler cv (Ctx.new req) =
      .returned (Ctx.new req)
        (some (NewError 400 "You have to provide `image` field!")) := by
    cases r with
    | converter =>
      simp [Route.handler, converter, Ctx.FormFile, Ctx.new, hfile, StatusBadRequest]
    | compressor =>
      simp [Route.handler, compressor, Ctx.FormFile, Ctx.new, hfile, StatusBadRequest]
    | resizer =>
      rcases hroute with h | h | ⟨w, h, hw, hh, hdim⟩
      · cases h
      · cases h
      · simp [Route.handler, resizer, Ctx.FormFile, Ctx.FormValue, Ctx.new, hfile, hw, hh,
          hdim, StatusBadRequest]
  exact (serve_of_error cv r req _ _ _ key rfl).1

theorem missing_image_response_witness :
    (serve testCv Route.resizer (Request.mk [("width", "600"), ("height", "400")] [])).response? =
      some (errorResponse 400 "You have to provide `image` field!") :=
  missing_image_response testCv Route.resizer
    (Request.mk [("width", "600"), ("height", "400")] []) (by decide)
    (Or.inr (Or.inr ⟨600, 400, by decide, by decide, by decide⟩))

/-! ## C2: the order of the resizer's checks -/

/-- C2: on the resizer the first failing check decides the response, in the
order width parses, height parses, not both nonpositive, `image` present,
declared content type supported; the first three answers do not depend on the
upload, and a width that does not parse decides whatever the height is. -/
theorem resizer_validation_order (cv : Gocv Mat) (req : Request) :
    (Atoi (req.FormValue "width" "0") = none →
      (serve cv Route.resizer req).response? =
        some (errorResponse 400 "Please provide only an integer number for `width`!")) ∧
    (∀ w, Atoi (req.FormValue "width" "0") = some w →
      Atoi (req.FormValue "height" "0") = none →
      (serve cv Route.resizer req).response? =
        some (errorResponse 400 "Please provide only an integer number for `height`!")) ∧
    (∀ w h, Atoi (req.FormValue "width" "0") = some w →
      Atoi (req.FormValue "height" "0") = some h → (w ≤ 0 ∧ h ≤ 0) →
      (serve cv Route.resizer req).response? =
        some (errorResponse 400
          "You must specify the dimensions using the `width` and `height` fields!")) ∧
    (∀ w h, Atoi (req.FormValue "width" "0") = some w →
      Atoi (req.FormValue "height" "0") = some h → ¬ (w ≤ 0 ∧ h ≤ 0) →
      req.FormFile "image" = none →
      (serve cv Route.resizer req).response? =
        some (errorResponse 400 "You have to provide `image` field!")) ∧
    (∀ w h file, Atoi (req.FormValue "width" "0") = some w →
      Atoi (req.FormValue "height" "0") = some h → ¬ (w ≤ 0 ∧ h ≤ 0) →
      req.FormFile "image" = some file →
      (file.Get "Content-Type" ≠ "image/jpeg" ∧ file.Get "Content-Type" ≠ "image/png") →
      (serve cv Route.resizer req).response? =
        some (errorResponse 400 "The image must be in JPEG or PNG format!")) := by
  refine ⟨?_, ?_, ?_, ?_, ?_⟩
  · intro hw
    refine (serve_of_error cv Route.resizer req (Ctx.new req) _ _ ?_ rfl).1
    simp [Route.handler, resizer, Ctx.FormValue, Ctx.new, hw, StatusBadRequest]
  · intro w hw hh
    refine (serve_of_error cv Route.resizer req (Ctx.new req) _ _ ?_ rfl).1
    simp [Route.handler, resizer, Ctx.FormValue, Ctx.new, hw, hh, StatusBadRequest]
  · intro w h hw hh hdim
    refine (serve_of_error cv Route.resizer req (Ctx.new req) _ _ ?_ rfl).1
    simp [Route.handler, resizer, Ctx.FormValue, Ctx.new, hw, hh, hdim, StatusBadRequest]
  · intro w h hw hh hdim hfile
    refine (serve_of_error cv Route.resizer req (Ctx.new req) _ _ ?_ rfl).1
    simp [Route.handler, resizer, Ctx.FormValue, Ctx.FormFile, Ctx.new, hw, hh, hdim, hfile,
      StatusBadRequest]
  · intro w h file hw hh hdim hfile hmime
    refine (serve_of_error cv Route.resizer req (Ctx.new req) _ _ ?_ rfl).1
    simp [Route.handler, resizer, Ctx.FormValue, Ctx.FormFile, Ctx.new, hw, hh, hdim, hfile,
      hmime, StatusBadRequest]

theorem resizer_validation_order_witness :
    (serve testCv Route.resizer
        (Request.mk [("width", "ABC"), ("height", "DEF")] [])).response? =
      some (errorResponse 400 "Please provide only an integer number for `width`!") ∧
    (serve testCv Route.resizer
        (Request.mk [("width", "-600"), ("height", "DEF")] [])).response? =
      some (errorResponse 400 "Please provide only an integer number for `height`!") ∧
    (serve testCv Route.resizer
        (Request.mk [("width", "-600"), ("height", "0")]
          [("image", upload "image.jpg" "image/jpeg" [6, 4, 1])])).response? =
      some (errorResponse 400
        "You must specify the dimensions using the `width` and `height` fields!") ∧
    (serve testCv Route.resizer
        (Request.mk [("width", "600"), ("height", "400")]
          [("image", upload "image.svg" "application/octet-stream" [6, 4, 1])])).response? =
      some (errorResponse 400 "The image must be in JPEG or PNG format!") :=
  ⟨(resizer_validation_order testCv
      (Request.mk [("width", "ABC"), ("height", "DEF")] [])).1 (by decide),
   (resizer_validation_order testCv
      (Request.mk [("width", "-600"), ("height", "DEF")] [])).2.1 (-600) (by decide)
      (by decide),
   (resizer_validation_order testCv
      (Request.mk [("width", "-600"), ("height", "0")]
        [("image", upload "image.jpg" "image/jpeg" [6, 4, 1])])).2.2.1 (-600) 0 (by decide)
      (by decide) (by decide),
   (resizer_validation_order testCv
      (Request.mk [("width", "600"), ("height", "400")]
        [("image", upload "image.svg" "application/octet-stream" [6, 4, 1])])).2.2.2.2 600 400
      (upload "image.svg" "application/octet-stream" [6, 4, 1]) (by decide) (by decide)
      (by decide) (by decide) (by decide)⟩

/-! ## C3: the content type of a successful resize or compression -/

/-- The handler of a resizer or compressor request that returns nil: the
upload is there with a supported declared type, and the response is status
200, the single Content-Type header set from the extension table, and raw
bytes. -/
theorem success_shape (cv : Gocv Mat) (r : Route) (req : Request) (c : Ctx Mat)
    (hr : r = Route.resizer ∨ r = Route.compressor)
    (hrun : r.handler cv (Ctx.new req) = .returned c none) :
    ∃ file buf, req.FormFile "image" = some file ∧
      (file.Get "Content-Type" = "image/jpeg" ∨ file.Get "Content-Type" = "image/png") ∧
      c.response = { status := 200,
                     headers := [("Content-Type",
                       sentValue "Content-Type" (supportedTypesAt (Ext file.Filename)))],
                     body := .raw buf } := by
  rcases hr with hr | hr
  · subst hr
    simp only [Route.handler, resizer, Ctx.FormValue, Ctx.FormFile, Ctx.new] at hrun
    split at hrun
    · cases hrun
    · split at hrun
      · cases hrun
      · split at hrun
        · cases hrun
        · split at hrun
          · cases hrun
          · rename_i file hfile
            split at hrun
            · cases hrun
            · rename_i hmime
              split at hrun
              · cases hrun
              · split at hrun
                · cases hrun
                · split at hrun
                  · cases hrun
                  · split at hrun
                    · cases hrun
                    · rename_i buf hbuf
                      refine ⟨file, buf, hfile, ?_, ?_⟩
                      · by_cases hj : file.Get "Content-Type" = "image/jpeg"
                        · exact Or.inl hj
                        · right
                          by_contra hp
                          exact hmime ⟨hj, hp⟩
                      · simp only [Ctx.Send, Ctx.Set, Ctx.call, Ctx.Println] at hrun
                        cases hrun
                        simp [setHeader, StatusOK]
  · subst hr
    simp only [Route.handler, compressor, Ctx.FormFile, Ctx.new] at hrun
    split at hrun
    · cases hrun
    · rename_i file hfile
      split at hrun
      · cases hrun
      · rename_i hmime
        split at hrun
        · cases hrun
        · split at hrun
          · cases hrun
          · split at hrun
            · cases hrun
            · split at hrun
              · cases hrun
              · rename_i buf hbuf
                refine ⟨file, buf, hfile, ?_, ?_⟩
                · by_cases hj : file.Get "Content-Type" = "image/jpeg"
                  · exact Or.inl hj
                  · right
                    by_contra hp
                    exact hmime ⟨hj, hp⟩
                · simp only [Ctx.Send, Ctx.Set, Ctx.call, Ctx.Println] at hrun
                  cases hrun
                  simp [setHeader, StatusOK]


/-- C3, as stated, fails: an upload named `a.png` and declared `image/jpeg`
is resized and compressed without error, and the Content-Type of both
responses is `image/png`, not the declared `image/jpeg`. -/
theorem content_type_declared_counterexample :
    (upload "a.png" "image/jpeg" [3, 2, 9, 9]).Get "Content-Type" = "image/jpeg" ∧
    (serve testCv Route.resizer
        (Request.mk [("width", "5"), ("height", "7")]
          [("image", upload "a.png" "image/jpeg" [3, 2, 9, 9])])).response? =
      some { status := 200, headers := [("Content-Type", "image/png")],
             body := .raw [5, 7, 9, 9] } ∧
    (serve testCv Route.compressor
        (Request.mk [] [("image", upload "a.png" "image/jpeg" [3, 2, 9, 9])])).response? =
      some { status := 200, headers := [("Content-Type", "image/png")],
             body := .raw [3, 2, 9] } := by
  decide

/-- C3, amended: a resizer or compressor request that succeeds and whose
upload has a filename with an extension listed in `supportedTypes` (`.jpg`,
`.jpeg`, `.png`) is answered with the Content-Type the table gives for that
extension; it equals the declared content type of the upload whenever the
table maps the extension to the declared type (`.jpg` or `.jpeg` declared
`image/jpeg`, `.png` declared `image/png`). -/
theorem content_type_of_success (cv : Gocv Mat) (r : Route) (req : Request) (c : Ctx Mat)
    (file : FileHeader) (t : String)
    (hr : r = Route.resizer ∨ r = Route.compressor)
    (hfile : req.FormFile "image" = some file)
    (hrun : r.handler cv (Ctx.new req) = .returned c none)
    (hext : supportedTypes.lookup (Ext file.Filename) = some t) :
    serve cv r req = .returned c none ∧
    c.response.status = 200 ∧
    c.response.headers = [("Content-Type", t)] ∧
    (t = file.Get "Content-Type" →
      c.response.headers.lookup "Content-Type" = some (file.Get "Content-Type")) := by
  obtain ⟨file2, buf, hfile2, _, hresp⟩ := success_shape cv r req c hr hrun
  have hsame : file2 = file := by
    rw [hfile] at hfile2
    exact (Option.some.inj hfile2).symm
  subst hsame
  have hat : supportedTypesAt (Ext file2.Filename) = t := by
    simp only [supportedTypesAt, hext, Option.getD_some]
  have hsent : sentValue "Content-Type" t = t :=
    sentValue_entry t (supportedTypes_entry _ t hext)
  have hheaders : c.response.headers = [("Content-Type", t)] := by
    rw [hresp, hat, hsent]
  refine ⟨?_, ?_, hheaders, ?_⟩
  · simp [serve, hrun]
  · simp [hresp]
  · intro hdecl
    rw [hheaders, ← hdecl]
    simp [List.lookup]

theorem content_type_of_success_witness :
    serve testCv Route.compressor
        (Request.mk [] [("image", upload "image.jpeg" "image/jpeg" [3, 2, 9, 9])]) =
      .returned jpegCompressed none ∧
    jpegCompressed.response.headers = [("Content-Type", "image/jpeg")] ∧
    jpegCompressed.response.headers.lookup "Content-Type" = some "image/jpeg" :=
  have h := content_type_of_success testCv Route.compressor
    (Request.mk [] [("image", upload "image.jpeg" "image/jpeg" [3, 2, 9, 9])])
    jpegCompressed (upload "image.jpeg" "image/jpeg" [3, 2, 9, 9]) "image/jpeg"
    (Or.inr rfl) (by decide) rfl (by decide)
  ⟨h.1, h.2.2.1, h.2.2.2 (by decide)⟩

/-! ## C4: the parameters of the compressor's encoder -/

/-- C4, at the failing input: for an upload named `a.png` and declared
`image/jpeg` the compressor calls the encoder with the PNG extension and the
JPEG parameters (JPEG quality, 50); for `a.jpg` declared `image/png` it calls
the JPEG encoder with (PNG compression, 5). -/
theorem compressor_params_of_other_format :
    (serve testCv Route.compressor
        (Request.mk [] [("image", upload "a.png" "image/jpeg" [3, 2, 9, 9])])).calls =
      [.fileOpen "a.png", .readAll, .imDecode [3, 2, 9, 9] IMReadColor,
       .imEncodeWithParams ".png" { cols := 3, rows := 2, pixels := [9, 9] }
         [IMWriteJpegQuality, 50]] ∧
    (serve testCv Route.compressor
        (Request.mk [] [("image", upload "a.jpg" "image/png" [3, 2, 9, 9])])).calls =
      [.fileOpen "a.jpg", .readAll, .imDecode [3, 2, 9, 9] IMReadColor,
       .imEncodeWithParams ".jpg" { cols := 3, rows := 2, pixels := [9, 9] }
         [IMWritePngCompression, 5]] := by
  decide

/-! ## C5, C6: the error handler -/

/-- C5, at the failing input: for an error that is not a fiber error (here any
error made by `errors.New`) the error handler does not complete: it reads
`e.Message` through the nil pointer `e`, and no response with the envelope
"Internal Server Error" is produced. -/
theorem error_handler_crashes_on_plain_error (c : Ctx Mat) (text : String) :
    ErrorHandler c (.plain text) = .crashed ∧
    (ErrorHandler c (.plain text)).response? ≠
      some (errorResponse 500 "Internal Server Error") := by
  simp [ErrorHandler, errorsAs, Result.response?]

/-- C6: for a fiber error with code `k` and message `m` the error handler
returns nil and leaves the response with status `k`, a JSON body with exactly
the fields code = `k`, message = `m`, status = "error", and the JSON content
type. -/
theorem error_handler_envelope (c : Ctx Mat) (k : Int) (m : String) :
    ∃ c2, ErrorHandler c (NewError k m) = .returned c2 none ∧
      c2.response.status = k ∧
      c2.response.body =
        .json [("code", .num k), ("message", .str m), ("status", .str "error")] ∧
      c2.response.headers.lookup "Content-Type" = some "application/json" ∧
      c2.calls = c.calls := by
  refine ⟨_, ErrorHandler_fiber c k m, rfl, rfl, ?_, rfl⟩
  exact lookup_setHeader _ _ _

/-! ## C7: the dimension gate of the resizer -/

/-- C7: for integers `w` and `h` and an upload that passes the image checks
(present, declared JPEG or PNG, opened, read, decoded), the resizer answers
with the dimension error if and only if `w ≤ 0` and `h ≤ 0`; in every other
case it calls the resize primitive on the decoded image with exactly the size
`(w, h)`, once, between the decode and the encode. -/
theorem resizer_dimension_gate (cv : Gocv Mat) (req : Request) (w h : Int)
    (file : FileHeader) (f : File) (b : Bytes) (img : Mat)
    (hw : Atoi (req.FormValue "width" "0") = some w)
    (hh : Atoi (req.FormValue "height" "0") = some h)
    (hfile : req.FormFile "image" = some file)
    (hmime : file.Get "Content-Type" = "image/jpeg" ∨ file.Get "Content-Type" = "image/png")
    (hopen : file.opened = some f)
    (hread : f.contents = some b)
    (hdec : cv.IMDecode b IMReadColor = some img) :
    ((serve cv Route.resizer req).response? =
        some (errorResponse 400
          "You must specify the dimensions using the `width` and `height` fields!") ↔
      (w ≤ 0 ∧ h ≤ 0)) ∧
    (¬ (w ≤ 0 ∧ h ≤ 0) →
      (serve cv Route.resizer req).calls =
        [.fileOpen file.Filename, .readAll, .imDecode b IMReadColor, .resize img w h,
         .imEncode (Ext file.Filename) (cv.Resize img w h)]) := by
  have hm : ¬ (file.Get "Content-Type" ≠ "image/jpeg" ∧ file.Get "Content-Type" ≠ "image/png") := by
    rintro ⟨h1, h2⟩
    rcases hmime with h3 | h3
    · exact h1 h3
    · exact h2 h3
  by_cases hdim : w ≤ 0 ∧ h ≤ 0
  · refine ⟨⟨fun _ => hdim, fun _ => ?_⟩, fun hn => absurd hdim hn⟩
    refine (serve_of_error cv Route.resizer req (Ctx.new req) _ _ ?_ rfl).1
    simp [Route.handler, resizer, Ctx.FormValue, Ctx.new, hw, hh, hdim, StatusBadRequest]
  · cases henc : cv.IMEncode (Ext file.Filename) (cv.Resize img w h) with
    | none =>
      have hs := serve_of_error cv Route.resizer req
        { request := req, response := { status := StatusOK, headers := [], body := .empty },
          calls := [.fileOpen file.Filename, .readAll, .imDecode b IMReadColor, .resize img w h,
            .imEncode (Ext file.Filename) (cv.Resize img w h)],
          logs := [] } 500 "Failed to resize image dimension"
        (by simp [Route.handler, resizer, Ctx.FormValue, Ctx.FormFile, Ctx.new, Ctx.call, hw, hh,
              hdim, hfile, hm, hopen, hread, hdec, henc, StatusInternalServerError]) rfl
      refine ⟨⟨fun hresp => ?_, fun hd => absurd hd hdim⟩, fun _ => hs.2⟩
      rw [hs.1] at hresp
      simp [errorResponse] at hresp
    | some buf =>
      have hrun : serve cv Route.resizer req =
          .returned
            { request := req,
              response := { status := StatusOK,
                            headers := [("Content-Type",
                              sentValue "Content-Type" (supportedTypesAt (Ext file.Filename)))],
                            body := .raw buf },
              calls := [.fileOpen file.Filename, .readAll, .imDecode b IMReadColor,
                .resize img w h, .imEncode (Ext file.Filename) (cv.Resize img w h)],
              logs := [[.s "=== RESIZER ==="],
                [.s "Original\t:", .i (cv.Cols img), .s " x ", .i (cv.Rows img)],
                [.s "Resized\t:", .i (cv.Cols (cv.Resize img w h)), .s " x ",
                  .i (cv.Rows (cv.Resize img w h))]] } none := by
        simp [serve, Route.handler, resizer, Ctx.FormValue, Ctx.FormFile, Ctx.new, Ctx.call,
          Ctx.Set, Ctx.Send, Ctx.Println, setHeader, hw, hh, hdim, hfile, hm, hopen, hread, hdec,
          henc]
      refine ⟨⟨fun hresp => ?_, fun hd => absurd hd hdim⟩, fun _ => ?_⟩
      · rw [hrun] at hresp
        simp [Result.response?, errorResponse, StatusOK] at hresp
      · rw [hrun]
        rfl

theorem resizer_dimension_gate_witness :
    ((serve testCv Route.resizer
        (Request.mk [("width", "0"), ("height", "7")]
          [("image", upload "a.png" "image/png" [3, 2, 9, 9])])).response? =
        some (errorResponse 400
          "You must specify the dimensions using the `width` and `height` fields!") ↔
      ((0 : Int) ≤ 0 ∧ (7 : Int) ≤ 0)) ∧
    (¬ ((0 : Int) ≤ 0 ∧ (7 : Int) ≤ 0) →
      (serve testCv Route.resizer
        (Request.mk [("width", "0"), ("height", "7")]
          [("image", upload "a.png" "image/png" [3, 2, 9, 9])])).calls =
        [.fileOpen "a.png", .readAll, .imDecode [3, 2, 9, 9] IMReadColor,
         .resize { cols := 3, rows := 2, pixels := [9, 9] } 0 7,
         .imEncode (Ext "a.png")
           (testCv.Resize { cols := 3, rows := 2, pixels := [9, 9] } 0 7)]) :=
  resizer_dimension_gate testCv
    (Request.mk [("width", "0"), ("height", "7")]
      [("image", upload "a.png" "image/png" [3, 2, 9, 9])])
    0 7 (upload "a.png" "image/png" [3, 2, 9, 9]) { contents := some [3, 2, 9, 9] }
    [3, 2, 9, 9] { cols := 3, rows := 2, pixels := [9, 9] }
    (by decide) (by decide) (by decide) (Or.inr (by decide)) rfl rfl rfl

/-! ## The shape of every handler run -/

/-- Every run of a handler on a fresh context returns, in one of two ways:
with a fiber error and the response untouched, or with nil and a response made
of status 200, the one Content-Type header, and the bytes the library returned
for the encode, the last call of the run. -/
theorem handler_cases (cv : Gocv Mat) (r : Route) (req : Request) :
    (∃ c k m, r.handler cv (Ctx.new req) = .returned c (some (NewError k m)) ∧
      c.response = { status := 200, headers := [], body := .empty }) ∨
    (∃ c ct buf, r.handler cv (Ctx.new req) = .returned c none ∧
      c.response = { status := 200, headers := [("Content-Type", ct)], body := .raw buf } ∧
      (∃ x, c.calls.getLast? = some x ∧ cv.encoded x = some buf) ∧
      (r = Route.converter → ct = "image/jpeg") ∧
      (∀ file, r ≠ Route.converter → req.FormFile "image" = some file →
        ct = sentValue "Content-Type" (supportedTypesAt (Ext file.Filename)))) := by
  cases r with
  | converter =>
    simp only [Route.handler, converter, Ctx.FormFile, Ctx.new, Ctx.Send, Ctx.Set, Ctx.call,
      Ctx.Println, setHeader]
    repeat' split
    all_goals first
      | exact Or.inl ⟨_, _, _, rfl, rfl⟩
      | exact Or.inr ⟨_, _, _, rfl, rfl, ⟨_, rfl, by assumption⟩, fun _ => rfl,
          fun _ hne => absurd rfl hne⟩
  | resizer =>
    simp only [Route.handler, resizer, Ctx.FormValue, Ctx.FormFile, Ctx.new, Ctx.Send, Ctx.Set,
      Ctx.call, Ctx.Println, setHeader]
    repeat' split
    all_goals first
      | exact Or.inl ⟨_, _, _, rfl, rfl⟩
      | (refine Or.inr ⟨_, _, _, rfl, rfl, ⟨_, rfl, by assumption⟩,
           fun hc => Route.noConfusion hc, fun file _ hf => ?_⟩
         simp_all)
  | compressor =>
    simp only [Route.handler, compressor, Ctx.FormFile, Ctx.new, Ctx.Send, Ctx.Set, Ctx.call,
      Ctx.Println, setHeader]
    repeat' split
    all_goals first
      | exact Or.inl ⟨_, _, _, rfl, rfl⟩
      | (refine Or.inr ⟨_, _, _, rfl, rfl, ⟨_, rfl, by assumption⟩,
           fun hc => Route.noConfusion hc, fun file _ hf => ?_⟩
         simp_all)

/-- A converter run on an upload declared `image/png`: the upload is opened
first, and the run ends in a 500 fiber error on an untouched response or in
nil with status 200. -/
theorem converter_after_validation (cv : Gocv Mat) (req : Request) (file : FileHeader)
    (hfile : req.FormFile "image" = some file)
    (hm : file.Get "Content-Type" = "image/png") :
    (∃ c m, converter cv (Ctx.new req) = .returned c (some (NewError 500 m)) ∧
      c.response.headers = [] ∧ c.calls.head? = some (.fileOpen file.Filename)) ∨
    (∃ c, converter cv (Ctx.new req) = .returned c none ∧ c.response.status = 200 ∧
      c.calls.head? = some (.fileOpen file.Filename)) := by
  simp only [converter, Ctx.FormFile, Ctx.new, Ctx.Send, Ctx.Set, Ctx.call, Ctx.Println,
    setHeader, hfile, hm]
  repeat' split
  all_goals first
    | exact Or.inl ⟨_, _, rfl, rfl, rfl⟩
    | exact Or.inr ⟨_, rfl, rfl, rfl⟩
    | simp_all

/-! ## C8: the converter accepts PNG only -/

/-- C8: a converter request that carries an `image` field passes validation
(is not answered with a 400) if and only if the declared content type of the
upload is exactly `image/png`, and it then opens the upload; for any other
declared content type the answer is 400 "Please provide an image with PNG
extension!" and no call is made on the upload or on the image library. -/
theorem converter_png_gate (cv : Gocv Mat) (req : Request) (file : FileHeader)
    (hfile : req.FormFile "image" = some file) :
    ((∀ m, (serve cv Route.converter req).response? ≠ some (errorResponse 400 m)) ↔
      file.Get "Content-Type" = "image/png") ∧
    (file.Get "Content-Type" = "image/png" →
      (serve cv Route.converter req).calls.head? = some (.fileOpen file.Filename)) ∧
    (file.Get "Content-Type" ≠ "image/png" →
      (serve cv Route.converter req).response? =
        some (errorResponse 400 "Please provide an image with PNG extension!") ∧
      (serve cv Route.converter req).calls = []) := by
  have hbad : file.Get "Content-Type" ≠ "image/png" →
      (serve cv Route.converter req).response? =
        some (errorResponse 400 "Please provide an image with PNG extension!") ∧
      (serve cv Route.converter req).calls = [] := by
    intro hm
    refine serve_of_error cv Route.converter req (Ctx.new req) _ _ ?_ rfl
    simp [Route.handler, converter, Ctx.FormFile, Ctx.new, hfile, hm, StatusBadRequest]
  have hgood : file.Get "Content-Type" = "image/png" →
      (∀ m, (serve cv Route.converter req).response? ≠ some (errorResponse 400 m)) ∧
      (serve cv Route.converter req).calls.head? = some (.fileOpen file.Filename) := by
    intro hm
    rcases converter_after_validation cv req file hfile hm with
      ⟨c, m, hrun, hhead, hcalls⟩ | ⟨c, hrun, hstatus, hcalls⟩
    · have hs := serve_of_error cv Route.converter req c 500 m hrun hhead
      refine ⟨fun m2 hresp => ?_, ?_⟩
      · rw [hs.1] at hresp
        simp [errorResponse] at hresp
      · rw [hs.2]
        exact hcalls
    · have hs : serve cv Route.converter req = .returned c none := by
        simp [serve, Route.handler, hrun]
      refine ⟨fun m2 hresp => ?_, ?_⟩
      · rw [hs] at hresp
        simp only [Result.response?, Option.some.injEq] at hresp
        rw [hresp] at hstatus
        simp [errorResponse] at hstatus
      · rw [hs]
        exact hcalls
  refine ⟨⟨fun hall => ?_, fun hm => (hgood hm).1⟩, fun hm => (hgood hm).2, hbad⟩
  by_contra hm
  exact hall _ (hbad hm).1

theorem converter_png_gate_witness :
    (serve testCv Route.converter
        (Request.mk [] [("image", upload "image.jpg" "application/octet-stream" [6, 4, 1])])
      ).response? =
        some (errorResponse 400 "Please provide an image with PNG extension!") ∧
    (serve testCv Route.converter
        (Request.mk [] [("image", upload "image.jpg" "application/octet-stream" [6, 4, 1])])
      ).calls = [] :=
  (converter_png_gate testCv
    (Request.mk [] [("image", upload "image.jpg" "application/octet-stream" [6, 4, 1])])
    (upload "image.jpg" "application/octet-stream" [6, 4, 1]) (by decide)).2.2 (by decide)

/-! ## C9: no partial response -/

/-- C9, at the failing inputs: an upload named `a.bmp` and declared
`image/png` passes the checks of the compressor, its extension has no entry
in `supportedTypes`, and the transformed image is sent with status 200 and the
Content-Type `text/plain; charset=utf-8`, which is no image content type; the
resizer does the same for an upload named `a.PNG`. -/
theorem unlisted_extension_content_type :
    supportedTypes.lookup (Ext "a.bmp") = none ∧
    (serve testCv Route.compressor
        (Request.mk [] [("image", upload "a.bmp" "image/png" [3, 2, 9, 9])])).response? =
      some { status := 200, headers := [("Content-Type", "text/plain; charset=utf-8")],
             body := .raw [3, 2, 9] } ∧
    supportedTypes.lookup (Ext "a.PNG") = none ∧
    (serve testCv Route.resizer
        (Request.mk [("width", "5"), ("height", "7")]
          [("image", upload "a.PNG" "image/png" [3, 2, 9, 9])])).response? =
      some { status := 200, headers := [("Content-Type", "text/plain; charset=utf-8")],
             body := .raw [5, 7, 9, 9] } ∧
    "image/".data.isPrefixOf "text/plain; charset=utf-8".data = false := by
  decide

/-- The part of C9 that holds on every route: a handler that returns an error
returns a fiber error and has written no header and no body before; each
response is either the bytes the encoder returned, with status 200 and the one
Content-Type header the handler set (`image/jpeg` on the converter, the entry
of `supportedTypes` when the filename's extension has one on the resizer
and the compressor), or the JSON error envelope, never a mix of both. -/
theorem no_partial_response (cv : Gocv Mat) (r : Route) (req : Request) :
    (∀ c err, r.handler cv (Ctx.new req) = .returned c (some err) →
      c.response = { status := 200, headers := [], body := .empty } ∧
      ∃ k m, err = NewError k m) ∧
    ((∃ c ct buf, r.handler cv (Ctx.new req) = .returned c none ∧
        serve cv r req = .returned c none ∧
        c.response = { status := 200, headers := [("Content-Type", ct)], body := .raw buf } ∧
        (∃ x, c.calls.getLast? = some x ∧ cv.encoded x = some buf) ∧
        (r = Route.converter → ct = "image/jpeg") ∧
        (∀ file t, r ≠ Route.converter → req.FormFile "image" = some file →
          supportedTypes.lookup (Ext file.Filename) = some t →
          ct = t ∧ (ct = "image/jpeg" ∨ ct = "image/png"))) ∨
     (∃ c k m, r.handler cv (Ctx.new req) = .returned c (some (NewError k m)) ∧
        (serve cv r req).response? = some (errorResponse k m))) := by
  rcases handler_cases cv r req with
    ⟨c, k, m, hrun, hresp⟩ | ⟨c, ct, buf, hrun, hresp, henc, hconv, hext⟩
  · refine ⟨fun c2 err h2 => ?_, Or.inr ⟨c, k, m, hrun, ?_⟩⟩
    · rw [hrun] at h2
      simp only [Result.returned.injEq, Option.some.injEq] at h2
      obtain ⟨hc, he⟩ := h2
      subst hc
      exact ⟨hresp, k, m, he.symm⟩
    · exact (serve_of_error cv r req c k m hrun (by rw [hresp])).1
  · refine ⟨fun c2 err h2 => ?_, Or.inl ⟨c, ct, buf, hrun, ?_, hresp, henc, hconv, ?_⟩⟩
    · rw [hrun] at h2
      simp at h2
    · simp [serve, hrun]
    · intro file t hne hfile hlook
      have ht := supportedTypes_entry _ t hlook
      have hat : supportedTypesAt (Ext file.Filename) = t := by
        simp only [supportedTypesAt, hlook, Option.getD_some]
      have hct : ct = t := by
        rw [hext file hne hfile, hat, sentValue_entry t ht]
      exact ⟨hct, by rw [hct]; exact ht⟩

/-- At a decode failure, after the upload was opened and read, the compressor
has written nothing to the response. -/
theorem no_partial_response_at_decode_failure :
    (decodeFailed.response = { status := 200, headers := [], body := .empty } ∧
      ∃ k m, NewError 500 "Failed to decode image" = NewError k m) ∧
    decodeFailed.calls = [.fileOpen "image.png", .readAll, .imDecode [] IMReadColor] :=
  ⟨(no_partial_response testCv Route.compressor
      (Request.mk [] [("image", upload "image.png" "image/png" [])])).1
      decodeFailed (NewError 500 "Failed to decode image") rfl, rfl⟩

/-! ## C10: a resizer request without `width` or without `height` -/

/-- C10, at the failing inputs: a resizer request with no field at all is
answered 400 with the dimension message, and a resizer request with
`width=ABC` and no `height` is answered 400 with the message on the width not
being an integer; neither "`width` field is missing!" nor "`height` field is
missing!" is the message, whatever the uploads are. -/
theorem resizer_missing_field_messages (cv : Gocv Mat) (files : List (String × FileHeader)) :
    (Request.mk [] files).values.lookup "width" = none ∧
    (serve cv Route.resizer (Request.mk [] files)).response? =
      some (errorResponse 400
        "You must specify the dimensions using the `width` and `height` fields!") ∧
    (serve cv Route.resizer (Request.mk [] files)).response? ≠
      some (errorResponse 400 "`width` field is missing!") ∧
    (Request.mk [("width", "ABC")] files).values.lookup "height" = none ∧
    (serve cv Route.resizer (Request.mk [("width", "ABC")] files)).response? =
      some (errorResponse 400 "Please provide only an integer number for `width`!") ∧
    (serve cv Route.resizer (Request.mk [("width", "ABC")] files)).response? ≠
      some (errorResponse 400 "`height` field is missing!") := by
  have h1 : (serve cv Route.resizer (Request.mk [] files)).response? =
      some (errorResponse 400
        "You must specify the dimensions using the `width` and `height` fields!") := by
    refine (serve_of_error cv Route.resizer _ (Ctx.new (Request.mk [] files)) _ _ ?_ rfl).1
    have ha : Atoi "0" = some 0 := by decide
    simp [Route.handler, resizer, Ctx.FormValue, Request.FormValue, firstValue, Ctx.new, ha,
      StatusBadRequest]
  have h2 : (serve cv Route.resizer (Request.mk [("width", "ABC")] files)).response? =
      some (errorResponse 400 "Please provide only an integer number for `width`!") := by
    refine (serve_of_error cv Route.resizer _
      (Ctx.new (Request.mk [("width", "ABC")] files)) _ _ ?_ rfl).1
    have ha : Atoi "ABC" = none := by decide
    simp [Route.handler, resizer, Ctx.FormValue, Request.FormValue, firstValue, Ctx.new, ha,
      StatusBadRequest]
  refine ⟨rfl, h1, ?_, rfl, h2, ?_⟩
  · rw [h1]
    decide
  · rw [h2]
    decide

/-! ## C11: a resizer request with both dimensions nonpositive -/

/-- C11, at the failing inputs: a resizer request whose width and height
values parse as integers that are both negative or zero is answered 400 with
the message "You must specify the dimensions using the `width` and `height`
fields!", whatever the uploads and the image library are; the message
"Invalid dimension values for `width` or/and `height` fields!" is not the
one sent. -/
theorem resizer_nonpositive_dimensions_message (cv : Gocv Mat) (req : Request) (w h : Int)
    (hw : Atoi (req.FormValue "width" "0") = some w)
    (hh : Atoi (req.FormValue "height" "0") = some h)
    (hwneg : w ≤ 0) (hhneg : h ≤ 0) :
    (serve cv Route.resizer req).response? =
      some (errorResponse 400
        "You must specify the dimensions using the `width` and `height` fields!") ∧
    (serve cv Route.resizer req).response? ≠
      some (errorResponse 400
        "Invalid dimension values for `width` or/and `height` fields!") ∧
    (serve cv Route.resizer req).calls = [] := by
  have hs := serve_of_error cv Route.resizer req (Ctx.new req) 400
    "You must specify the dimensions using the `width` and `height` fields!"
    (by simp [Route.handler, resizer, Ctx.FormValue, Ctx.new, hw, hh, hwneg, hhneg,
          StatusBadRequest]) rfl
  refine ⟨hs.1, ?_, hs.2⟩
  rw [hs.1]
  decide

theorem resizer_nonpositive_dimensions_message_witness :
    (serve testCv Route.resizer
        (Request.mk [("width", "-600"), ("height", "-400")] [])).response? =
      some (errorResponse 400
        "You must specify the dimensions using the `width` and `height` fields!") ∧
    (serve testCv Route.resizer
        (Request.mk [("width", "-600"), ("height", "-400")] [])).response? ≠
      some (errorResponse 400
        "Invalid dimension values for `width` or/and `height` fields!") ∧
    (serve testCv Route.resizer
        (Request.mk [("width", "-600"), ("height", "-400")] [])).calls = [] :=
  resizer_nonpositive_dimensions_message testCv
    (Request.mk [("width", "-600"), ("height", "-400")] []) (-600) (-400)
    (by decide) (by decide) (by decide) (by decide)

end ImageProcessing
